import Mathlib

/-!
# weather_service: a shallow embedding of `main.go`

The program is a small HTTP front-end: `currentweather` reads two form values,
calls `fetchCurrentWeatherForLatLon`, and renders either an error line or an
HTML template.  `fetchCurrentWeatherForLatLon` performs one outbound GET, reads
the body, decodes it as JSON and derives a `SimpleWeather`.

Modelling conventions.

* Go strings are modelled by Lean `String`s (one `Char` per rune of valid
  UTF-8 text).  Every byte that the formatting code inspects is ASCII, and an
  ASCII byte never occurs inside a multi-byte UTF-8 sequence.
* `float64` readings decoded by `encoding/json` are always finite, hence
  rational numbers; the only operations the program applies to them are the
  comparisons with `40` and `80`, which are exact.  They are modelled by `ℚ`.
* The outside world (the HTTP client, the body reader, the JSON decoder and the
  template engine) is a parameter `World`; the functions of `main.go` are
  deterministic functions of it.
* A Go result `(*SimpleWeather, error)` is kept as a pair of options, so that
  "no value together with an error" is a property to be proved and not a
  consequence of the result type.
-/

namespace WeatherService

/-! ## Go errors -/

/-- Go `error` values that occur in the program: errors handed back by library
calls (`lib`), `*errors.errorString` (built by `fmt.Errorf` without `%w`), and
`*fmt.wrapError` (built by `fmt.Errorf` with one `%w`). -/
inductive GoError where
  | lib (msg : String)
  | errorString (s : String)
  | wrapError (msg : String) (err : GoError)
deriving DecidableEq, Repr

/-- The `Error()` method: the display text of an error. -/
def GoError.Error : GoError → String
  | .lib msg => msg
  | .errorString s => s
  | .wrapError msg _ => msg

/-! ## `fmt` with an empty operand list

`fetchCurrentWeatherForLatLon` calls `fmt.Errorf(string(body))`: the response
body is the *format string* and there are no operands.  The definitions below
follow `(*pp).doPrintf` of the Go standard library (`fmt/print.go`,
`fmt/format.go`) for `len(a) = 0`; positions `format[i:]` are kept as the
remaining suffix of the format. -/

def percentBangString : List Char := "%!".data
def missingString : List Char := "(MISSING)".data
def badIndexString : List Char := "(BADINDEX)".data
def noVerbString : List Char := "%!(NOVERB)".data
def badWidthString : List Char := "%!(BADWIDTH)".data
def badPrecString : List Char := "%!(BADPREC)".data

/-- Length in bytes of a piece of text (`len` of a Go string). -/
def byteLen (s : List Char) : Nat := (s.map Char.utf8Size).sum

/-- The flag characters skipped by the `simpleFormat` loop: `#0+- `. -/
def isFlag (c : Char) : Bool :=
  c == '#' || c == '0' || c == '+' || c == '-' || c == ' '

/-- The helper `tooLarge` of `fmt`: `const max int = 1e6; x > max || x < -max`. -/
def tooLarge (x : Int) : Bool := decide (x > 1000000) || decide (x < -1000000)

/-- The loop of `parsenum` over `s[newi:end]`. On overflow it returns
`(0, false, end)`, that is, an empty remainder. -/
def parsenumLoop : List Char → Int → Bool → Int × Bool × List Char
  | [], num, isnum => (num, isnum, [])
  | c :: cs, num, isnum =>
    if '0' ≤ c ∧ c ≤ '9' then
      if tooLarge num then (0, false, [])
      else parsenumLoop cs (num * 10 + ((c.toNat : Int) - ('0'.toNat : Int))) true
    else (num, isnum, c :: cs)

/-- The function `parsenum(s, start, end)` on the segment `s[start:end]`; the
third component is `s[newi:end]`. -/
def parsenum (seg : List Char) : Int × Bool × List Char :=
  match seg with
  | [] => (0, false, [])
  | _ => parsenumLoop seg 0 false

/-- The function `parseArgNumber(format)` where `format` starts with `[`; the
second component is `format[wid:]`. -/
def parseArgNumber (format : List Char) : Int × List Char × Bool :=
  if byteLen format < 3 then (0, format.drop 1, false)
  else
    match (format.drop 1).span (fun c => c != ']') with
    | (_, []) => (0, format.drop 1, false)
    | (inside, _ :: after) =>
      match parsenum inside with
      | (width, ok, rest) =>
        if !ok || !rest.isEmpty then (0, after, false)
        else (width - 1, after, true)

/-- The part of the printer state that `doPrintf` threads through one verb. -/
structure VerbState where
  /-- text written to `p.buf` -/
  out : List Char
  /-- the rest of the format, `format[i:]` -/
  rest : List Char
  argNum : Int
  afterIndex : Bool
  goodArgNum : Bool
deriving DecidableEq, Repr

/-- The method `argNumber(argNum, format, i, numArgs)`. -/
def argNumber (s : VerbState) (numArgs : Int) : VerbState :=
  match s.rest with
  | '[' :: tl =>
    match parseArgNumber ('[' :: tl) with
    | (index, rest, ok) =>
      if ok && decide (0 ≤ index) && decide (index < numArgs) then
        { s with argNum := index, rest := rest, afterIndex := true }
      else
        { s with rest := rest, afterIndex := ok, goodArgNum := false }
  | _ => { s with afterIndex := false }

/-- "Do we have width?" for an empty operand list: `intFromArg` finds no
operand, so `*` writes `badWidthString`. -/
def widthStep (s : VerbState) : VerbState :=
  match s.rest with
  | '*' :: r => { s with out := s.out ++ badWidthString, rest := r, afterIndex := false }
  | _ =>
    match parsenum s.rest with
    | (_, widPresent, r) =>
      { s with rest := r, goodArgNum := if s.afterIndex && widPresent then false else s.goodArgNum }

/-- "Do we have precision?" for an empty operand list. -/
def precisionStep (s : VerbState) : VerbState :=
  match s.rest with
  | '.' :: r =>
    let s1 : VerbState :=
      { s with rest := r, goodArgNum := if s.afterIndex then false else s.goodArgNum }
    let s2 := argNumber s1 0
    match s2.rest with
    | '*' :: r2 => { s2 with out := s2.out ++ badPrecString, rest := r2, afterIndex := false }
    | _ =>
      match parsenum s2.rest with
      | (_, _, r2) => { s2 with rest := r2 }
  | _ => s

/-- The verb itself: `%%` writes a percent sign, a bad argument index writes
`%!v(BADINDEX)`, and every other verb finds no operand: `%!v(MISSING)`.  At the
end of the format it writes `%!(NOVERB)`. -/
def verbStep (s : VerbState) : VerbState :=
  let s1 := if s.afterIndex then s else argNumber s 0
  match s1.rest with
  | [] => { s1 with out := s1.out ++ noVerbString }
  | verb :: r =>
    if verb = '%' then { s1 with out := s1.out ++ ['%'], rest := r }
    else if !s1.goodArgNum then
      { s1 with out := s1.out ++ (percentBangString ++ [verb] ++ badIndexString), rest := r }
    else
      { s1 with out := s1.out ++ (percentBangString ++ [verb] ++ missingString), rest := r }

/-- Processing of one verb; `r` is the format after the `%`. -/
def doVerb (r : List Char) : VerbState :=
  let s0 : VerbState :=
    { out := [], rest := r.dropWhile isFlag, argNum := 0, afterIndex := false, goodArgNum := true }
  verbStep (precisionStep (widthStep (argNumber s0 0)))

/-- The `formatLoop` of `doPrintf`: copy text up to the next `%`, then process
one verb.  Every round consumes at least the `%`, so `format.length + 1` rounds
always suffice (`doPrintfLoop_fuel`). -/
def doPrintfLoop : Nat → List Char → List Char → List Char
  | 0, _, buf => buf
  | fuel + 1, format, buf =>
    match format.span (fun c => c != '%') with
    | (lit, []) => buf ++ lit
    | (lit, _ :: r) =>
      let s := doVerb r
      doPrintfLoop fuel s.rest (buf ++ lit ++ s.out)

/-- The method `doPrintf(format, a)` with `len(a) = 0`: the text left in `p.buf`. -/
def doPrintf (format : String) : String :=
  String.mk (doPrintfLoop (format.data.length + 1) format.data [])

/-- The call `fmt.Errorf(format)` without operands: no `%w` can be recorded, so
the result is `errors.New(s)`. -/
def Errorf (format : String) : GoError :=
  .errorString (doPrintf format)

/-- The calls `fmt.Errorf("<lead>%w", err)` of the program: the text is the
constant lead followed by `err.Error()`, and `err` is wrapped. -/
def ErrorfW (lead : String) (err : GoError) : GoError :=
  .wrapError (lead ++ err.Error) err

/-! ## Data model (`CurrentWeather`, `SimpleWeather`) -/

/-- One element of `CurrentWeather.Weather`. -/
structure WeatherEntry where
  ID : Int := 0
  Main : String := ""
  Description : String := ""
  Icon : String := ""
deriving DecidableEq, Repr

/-- The group `CurrentWeather.Coord`. -/
structure CoordGroup where
  Lon : ℚ := 0
  Lat : ℚ := 0
deriving DecidableEq, Repr

/-- The group `CurrentWeather.Main`. -/
structure MainGroup where
  Temp : ℚ := 0
  FeelsLike : ℚ := 0
  TempMin : ℚ := 0
  TempMax : ℚ := 0
  Pressure : Int := 0
  Humidity : Int := 0
  SeaLevel : Int := 0
  GrndLevel : Int := 0
deriving DecidableEq, Repr

/-- The group `CurrentWeather.Wind`. -/
structure WindGroup where
  Speed : ℚ := 0
  Deg : Int := 0
  Gust : ℚ := 0
deriving DecidableEq, Repr

/-- The group `CurrentWeather.Clouds`. -/
structure CloudsGroup where
  All : Int := 0
deriving DecidableEq, Repr

/-- The group `CurrentWeather.Sys`. -/
structure SysGroup where
  Type_ : Int := 0
  ID : Int := 0
  Country : String := ""
  Sunrise : Int := 0
  Sunset : Int := 0
deriving DecidableEq, Repr

/-- The decoded upstream response.  The field defaults are Go's zero values,
which is what `json.Unmarshal` leaves in a field absent from the body. -/
structure CurrentWeather where
  Coord : CoordGroup := {}
  Weather : List WeatherEntry := []
  Base : String := ""
  Main : MainGroup := {}
  Visibility : Int := 0
  Wind : WindGroup := {}
  Clouds : CloudsGroup := {}
  Dt : Int := 0
  Sys : SysGroup := {}
  Timezone : Int := 0
  ID : Int := 0
  Name : String := ""
  Cod : Int := 0
deriving DecidableEq, Repr

/-- The view-model handed to the template. -/
structure SimpleWeather where
  Name : String
  TempDescription : String
  Temp : ℚ
  CurrentDescription : String
deriving DecidableEq, Repr

/-! ## The outside world -/

/-- What the program observes of an `*http.Response`: the status code and the
outcome of `io.ReadAll(resp.Body)`. -/
structure Response where
  StatusCode : Int
  Body : Except GoError String

/-- The library calls whose results the program consumes. -/
structure World where
  /-- the call `http.Get(url)` -/
  Get : String → Except GoError Response
  /-- the call `json.Unmarshal(body, current)` on a fresh `CurrentWeather` -/
  Unmarshal : String → Except GoError CurrentWeather
  /-- the call `template.New("weathertemplate").Parse(text)`: its error, if any -/
  Parse : String → Option GoError
  /-- the call `tmpl.Execute(w, data)`: the text written to `w` and its error, if any -/
  Execute : String → Option SimpleWeather → String × Option GoError

/-! ## `fetchCurrentWeatherForLatLon` -/

def baseurl : String :=
  "https://api.openweathermap.org/data/2.5/weather?units=imperial&appid="

/-- Lines 85-91: the `switch` that sets `description`. -/
def description (FeelsLike : ℚ) : String :=
  if FeelsLike < 40 then "Cold"
  else if FeelsLike > 80 then "Hot"
  else "Moderate"

/-- The call `fmt.Sprintf("%v: %v\n", a, b)` on two strings. -/
def SprintfLine (a b : String) : String :=
  a ++ ": " ++ b ++ "\n"

/-- Lines 93-96: the loop that builds `currentdescription`, one `+=` per
element of `current.Weather`, starting from the empty string. -/
def currentdescription (Weather : List WeatherEntry) : String :=
  Weather.foldl (fun acc e => acc ++ SprintfLine e.Main e.Description) ""

/-- Lines 98-101: `name`. -/
def name (Name : String) : String :=
  if Name = "" then "an unknown location" else Name

/-- The result pair `(*SimpleWeather, error)` of the call, together with the
record of what the call did: the URLs passed to `http.Get` and the bodies
passed to `json.Unmarshal`, in order. -/
structure FetchResult where
  requests : List String
  decodes : List String
  value : Option SimpleWeather
  err : Option GoError
deriving DecidableEq, Repr

/-- The URL of line 66. -/
def requestURL (apikey lat lon : String) : String :=
  baseurl ++ apikey ++ "&lat=" ++ lat ++ "&lon=" ++ lon

/-- The function `fetchCurrentWeatherForLatLon(lat, lon)`; the global `apikey`
is a parameter. -/
def fetchCurrentWeatherForLatLon (env : World) (apikey lat lon : String) : FetchResult :=
  let url := requestURL apikey lat lon
  match env.Get url with
  | .error err =>
    { requests := [url], decodes := [], value := none,
      err := some (ErrorfW "could not get weather: " err) }
  | .ok resp =>
    match resp.Body with
    | .error err =>
      { requests := [url], decodes := [], value := none,
        err := some (ErrorfW "error reading body: " err) }
    | .ok body =>
      if resp.StatusCode ≠ 200 then
        { requests := [url], decodes := [], value := none, err := some (Errorf body) }
      else
        match env.Unmarshal body with
        | .error err =>
          { requests := [url], decodes := [body], value := none,
            err := some (ErrorfW "error unmarshalling response: " err) }
        | .ok current =>
          { requests := [url], decodes := [body],
            value := some
              { Name := name current.Name,
                Temp := current.Main.FeelsLike,
                TempDescription := description current.Main.FeelsLike,
                CurrentDescription := currentdescription current.Weather },
            err := none }

/-! ## The `/weather` handler -/

def resultpage : String :=
  "<!DOCTYPE html>\n<html>\n<head>\n<title>Weather Service</title>\n</head>\n<body>\n\n" ++
  "<h1>Current Weather near \x7b\x7b.Name\x7d\x7d:</h1>\n" ++
  "<h2>\x7b\x7b.CurrentDescription\x7d\x7d</h2>\n" ++
  "<h2>\x7b\x7b.TempDescription\x7d\x7d: \x7b\x7b.Temp\x7d\x7d&deg;F</h2>\n\n<br>\n" ++
  "Weather data provided by <a href=\"https://openweathermap.org/\">OpenWeather</a>\n\n" ++
  "</body>\n</html>"

/-- What a handler leaves in its `http.ResponseWriter`: the bytes written, and
the status passed to `WriteHeader` if the handler ever calls it. -/
structure ResponseWriter where
  body : String := ""
  status : Option Nat := none
deriving DecidableEq, Repr

/-- The calls `fmt.Fprintf(w, "<lead>%v", err)` of the handler, `err` a non-nil
error: the constant lead followed by `err.Error()` is written to `w`. -/
def FprintfV (w : ResponseWriter) (lead : String) (err : GoError) : ResponseWriter :=
  { w with body := w.body ++ (lead ++ err.Error) }

/-- The handler `currentweather(w, r)`; `FormValue` is `r.FormValue`. -/
def currentweather (env : World) (apikey : String) (FormValue : String → String)
    (w : ResponseWriter) : ResponseWriter :=
  let lat := FormValue "lat"
  let lon := FormValue "lon"
  let r := fetchCurrentWeatherForLatLon env apikey lat lon
  match r.err with
  | some err => FprintfV w "unable to get weather:" err
  | none =>
    match env.Parse resultpage with
    | some err => FprintfV w "unable to parse template:" err
    | none =>
      match env.Execute resultpage r.value with
      | (written, some err) =>
        FprintfV { w with body := w.body ++ written } "unable to execute template:" err
      | (written, none) => { w with body := w.body ++ written }

/-! ## Specification-side definitions and sample inputs -/

/-- The upstream answered the request for `lat`, `lon` with status 200 and a
body that `json.Unmarshal` decodes to `current`. -/
def DecodesTo (env : World) (apikey lat lon : String) (current : CurrentWeather) : Prop :=
  ∃ resp body, env.Get (requestURL apikey lat lon) = .ok resp ∧ resp.Body = .ok body ∧
    resp.StatusCode = 200 ∧ env.Unmarshal body = .ok current

/-- The condition summary as the specification words it: the concatenation, in
original order, of one line `"<Main>: <Description>"` per entry, each
newline-terminated; the empty string for the empty sequence. -/
def conditionSummary : List WeatherEntry → String
  | [] => ""
  | e :: es => (e.Main ++ ": " ++ e.Description ++ "\n") ++ conditionSummary es

/-- Scan for newline-terminated lines: `cur` is the line being read. The result
is the list of terminated lines, in order, and the unterminated remainder. -/
def splitLinesAux : List Char → List Char → List String × String
  | cur, [] => ([], String.mk cur)
  | cur, c :: cs =>
    if c = '\n' then ((String.mk cur) :: (splitLinesAux [] cs).1, (splitLinesAux [] cs).2)
    else splitLinesAux (cur ++ [c]) cs

/-- The newline-terminated lines of a text (without their newlines), and what
follows the last newline. -/
def terminatedLines (s : String) : List String × String :=
  splitLinesAux [] s.data

/-- A world whose upstream answers every request with the given status and body
outcome, whose decoder returns `decoded` for every body, and whose template
engine accepts the page and writes `page`. -/
def constWorld (status : Int) (body : Except GoError String)
    (decoded : Except GoError CurrentWeather) (page : String) : World :=
  { Get := fun _ => .ok { StatusCode := status, Body := body },
    Unmarshal := fun _ => decoded,
    Parse := fun _ => none,
    Execute := fun _ _ => (page, none) }

/-- The scenario of the specification: feels-like 35, no name, one condition. -/
def rainyResponse : CurrentWeather :=
  { Weather := [{ ID := 500, Main := "Rain", Description := "light rain", Icon := "10d" }],
    Main := { Temp := 38, FeelsLike := 35 },
    Name := "" }

/-- A response on the upper boundary of the moderate range. -/
def springfieldResponse : CurrentWeather :=
  { Weather := [{ ID := 800, Main := "Clear", Description := "clear sky", Icon := "01d" },
                { ID := 701, Main := "Mist", Description := "mist", Icon := "50d" }],
    Main := { Temp := 78, FeelsLike := 80 },
    Name := "Springfield" }

/-- The upstream body of the invalid-key scenario. -/
def invalidKeyBody : String := "\x7b\"cod\":401,\"message\":\"Invalid API key.\"\x7d"

/-- An upstream error body that contains a percent sign. -/
def quotaBody : String := "\x7b\"cod\":429,\"message\":\"quota 100% used\"\x7d"

/-- A condition whose free-text description spans two lines. -/
def stormEntries : List WeatherEntry :=
  [{ ID := 211, Main := "Thunderstorm", Description := "heavy rain\nwith hail", Icon := "11d" }]

/-! # Theorems -/

/-! ## The format loop never runs out of rounds -/

theorem parsenumLoop_length (l : List Char) (num : Int) (isnum : Bool) :
    (parsenumLoop l num isnum).2.2.length ≤ l.length := by
  induction l generalizing num isnum with
  | nil => simp [parsenumLoop]
  | cons c cs ih =>
    unfold parsenumLoop
    split
    · split
      · simp
      · exact Nat.le_succ_of_le (ih _ _)
    · simp

theorem parsenum_length (l : List Char) : (parsenum l).2.2.length ≤ l.length := by
  unfold parsenum
  split
  · simp
  · exact parsenumLoop_length _ _ _

theorem span_snd_length (p : Char → Bool) (l : List Char) :
    (l.span p).2.length ≤ l.length := by
  rw [List.span_eq_take_drop]
  exact (List.dropWhile_suffix p).length_le

theorem parseArgNumber_length (tl : List Char) :
    (parseArgNumber ('[' :: tl)).2.1.length ≤ tl.length := by
  unfold parseArgNumber
  split
  · simp
  · have hs := span_snd_length (fun c => c != ']') tl
    simp only [List.drop_succ_cons, List.drop_zero]
    split
    · simp
    · rename_i inside c after heq
      rw [heq] at hs
      simp only [List.length_cons] at hs
      split <;> simp <;> omega

theorem argNumber_length (s : VerbState) (numArgs : Int) :
    (argNumber s numArgs).rest.length ≤ s.rest.length := by
  unfold argNumber
  split
  · rename_i tl heq
    have h := parseArgNumber_length tl
    rw [heq]
    split
    rename_i index rest ok hp
    rw [hp] at h
    simp only [List.length_cons]
    split <;> simp at h ⊢ <;> omega
  · simp

theorem widthStep_length (s : VerbState) : (widthStep s).rest.length ≤ s.rest.length := by
  unfold widthStep
  split
  · rename_i r heq
    simp [heq]
  · have h := parsenum_length s.rest
    split
    rename_i a b r hp
    rw [hp] at h
    simpa using h

theorem precisionTail_length (s2 : VerbState) :
    (match s2.rest with
      | '*' :: r2 =>
        ({ s2 with out := s2.out ++ badPrecString, rest := r2, afterIndex := false } : VerbState)
      | _ =>
        match parsenum s2.rest with
        | (_, _, r2) => { s2 with rest := r2 }).rest.length ≤ s2.rest.length := by
  split
  · rename_i r2 heq
    simp [heq]
  · have h := parsenum_length s2.rest
    split
    rename_i a b r2 hp
    rw [hp] at h
    simpa using h

theorem precisionStep_length (s : VerbState) :
    (precisionStep s).rest.length ≤ s.rest.length := by
  unfold precisionStep
  split
  · rename_i r heq
    rw [heq]
    refine Nat.le_trans (precisionTail_length _) (Nat.le_trans (argNumber_length _ 0) ?_)
    simp
  · exact Nat.le_refl _

theorem verbStep_length (s : VerbState) : (verbStep s).rest.length ≤ s.rest.length := by
  unfold verbStep
  have h1 : (if s.afterIndex then s else argNumber s 0).rest.length ≤ s.rest.length := by
    split
    · exact Nat.le_refl _
    · exact argNumber_length s 0
  simp only
  split
  · rename_i heq
    simp [heq]
  · rename_i verb r heq
    rw [heq] at h1
    simp only [List.length_cons] at h1
    split_ifs <;> simp <;> omega

theorem doVerb_length (r : List Char) : (doVerb r).rest.length ≤ r.length := by
  unfold doVerb
  have h0 : (r.dropWhile isFlag).length ≤ r.length := (List.dropWhile_suffix isFlag).length_le
  have h1 := argNumber_length
    { out := [], rest := r.dropWhile isFlag, argNum := 0, afterIndex := false, goodArgNum := true } 0
  have h2 := widthStep_length (argNumber
    { out := [], rest := r.dropWhile isFlag, argNum := 0, afterIndex := false, goodArgNum := true } 0)
  have h3 := precisionStep_length (widthStep (argNumber
    { out := [], rest := r.dropWhile isFlag, argNum := 0, afterIndex := false, goodArgNum := true } 0))
  have h4 := verbStep_length (precisionStep (widthStep (argNumber
    { out := [], rest := r.dropWhile isFlag, argNum := 0, afterIndex := false, goodArgNum := true } 0)))
  simp only at h1 h2 h3 h4 ⊢
  omega

theorem doPrintfLoop_fuel_aux (n : Nat) :
    ∀ (format buf : List Char) (f1 f2 : Nat), format.length ≤ n → n < f1 → n < f2 →
      doPrintfLoop f1 format buf = doPrintfLoop f2 format buf := by
  induction n with
  | zero =>
    intro format buf f1 f2 hlen h1 h2
    have hnil : format = [] := List.length_eq_zero.mp (Nat.le_zero.mp hlen)
    subst hnil
    obtain ⟨a, rfl⟩ := Nat.exists_eq_succ_of_ne_zero (Nat.pos_iff_ne_zero.mp h1)
    obtain ⟨b, rfl⟩ := Nat.exists_eq_succ_of_ne_zero (Nat.pos_iff_ne_zero.mp h2)
    simp [doPrintfLoop, List.span_eq_take_drop]
  | succ m ih =>
    intro format buf f1 f2 hlen h1 h2
    obtain ⟨a, rfl⟩ := Nat.exists_eq_succ_of_ne_zero (Nat.pos_iff_ne_zero.mp (Nat.lt_of_le_of_lt (Nat.zero_le _) h1))
    obtain ⟨b, rfl⟩ := Nat.exists_eq_succ_of_ne_zero (Nat.pos_iff_ne_zero.mp (Nat.lt_of_le_of_lt (Nat.zero_le _) h2))
    have hs := span_snd_length (fun c => c != '%') format
    unfold doPrintfLoop
    split
    · rfl
    · rename_i lit c r heq
      rw [heq] at hs
      simp only [List.length_cons] at hs
      have hr := doVerb_length r
      exact ih _ _ a b (by omega) (by omega) (by omega)

/-- Any number of rounds above the length of the format gives the same text:
the loop always reaches the end of the format before its rounds are used up. -/
theorem doPrintfLoop_fuel (fuel : Nat) (format buf : List Char) (h : format.length < fuel) :
    doPrintfLoop fuel format buf = doPrintfLoop (format.length + 1) format buf :=
  doPrintfLoop_fuel_aux format.length format buf fuel (format.length + 1)
    (Nat.le_refl _) h (Nat.lt_succ_self _)

/-! ## The condition summary loop -/

theorem foldl_line_acc (es : List WeatherEntry) (acc : String) :
    es.foldl (fun acc e => acc ++ SprintfLine e.Main e.Description) acc
      = acc ++ conditionSummary es := by
  induction es generalizing acc with
  | nil => simp [conditionSummary]
  | cons e es ih =>
    rw [List.foldl_cons, ih, conditionSummary]
    simp only [SprintfLine, String.append_assoc]

theorem currentdescription_eq (es : List WeatherEntry) :
    currentdescription es = conditionSummary es := by
  unfold currentdescription
  rw [foldl_line_acc, String.empty_append]

theorem conditionSummary_append (xs ys : List WeatherEntry) :
    conditionSummary (xs ++ ys) = conditionSummary xs ++ conditionSummary ys := by
  induction xs with
  | nil => simp [conditionSummary]
  | cons e es ih =>
    rw [List.cons_append, conditionSummary, conditionSummary, ih]
    simp only [String.append_assoc]

/-! ## The success path -/

theorem fetch_of_decodes {env : World} {apikey lat lon : String} {current : CurrentWeather}
    (h : DecodesTo env apikey lat lon current) :
    fetchCurrentWeatherForLatLon env apikey lat lon =
      { requests := [requestURL apikey lat lon],
        decodes := (fetchCurrentWeatherForLatLon env apikey lat lon).decodes,
        value := some
          { Name := name current.Name,
            Temp := current.Main.FeelsLike,
            TempDescription := description current.Main.FeelsLike,
            CurrentDescription := currentdescription current.Weather },
        err := none } := by
  obtain ⟨resp, body, hget, hbody, hstatus, hdec⟩ := h
  simp [fetchCurrentWeatherForLatLon, hget, hbody, hstatus, hdec]

theorem description_cases (t : ℚ) :
    (description t = "Cold" ↔ t < 40) ∧ (description t = "Hot" ↔ t > 80) ∧
    (description t = "Moderate" ↔ 40 ≤ t ∧ t ≤ 80) := by
  unfold description
  by_cases h1 : t < 40
  · have h2 : ¬ t > 80 := by linarith
    have h3 : ¬ 40 ≤ t := by linarith
    simp [h1, h2, h3]
  · by_cases h2 : t > 80
    · have h3 : ¬ t ≤ 80 := by linarith
      simp [h1, h2, h3]
    · have h3 : 40 ≤ t := by linarith
      have h4 : t ≤ 80 := by linarith
      simp [h1, h2, h3, h4]

/-! ## Claims about the derived fields -/

/-- C1: for every feels-like value `t` of a decoded upstream response, the
`TempDescription` of the result is "Cold" exactly when `t < 40`, "Hot" exactly
when `t > 80`, and "Moderate" exactly in the remaining case `40 ≤ t ≤ 80`; in
particular `t = 40` and `t = 80` give "Moderate". -/
theorem C1_tempDescription_thresholds (env : World) (apikey lat lon : String)
    (current : CurrentWeather) (h : DecodesTo env apikey lat lon current) :
    ∃ sw, (fetchCurrentWeatherForLatLon env apikey lat lon).value = some sw ∧
      (sw.TempDescription = "Cold" ↔ current.Main.FeelsLike < 40) ∧
      (sw.TempDescription = "Hot" ↔ current.Main.FeelsLike > 80) ∧
      (sw.TempDescription = "Moderate" ↔
        40 ≤ current.Main.FeelsLike ∧ current.Main.FeelsLike ≤ 80) ∧
      (current.Main.FeelsLike = 40 → sw.TempDescription = "Moderate") ∧
      (current.Main.FeelsLike = 80 → sw.TempDescription = "Moderate") := by
  rw [fetch_of_decodes h]
  obtain ⟨hc, hh, hm⟩ := description_cases current.Main.FeelsLike
  refine ⟨_, rfl, hc, hh, hm, ?_, ?_⟩
  · intro h40
    exact hm.mpr ⟨by rw [h40], by rw [h40]; norm_num⟩
  · intro h80
    exact hm.mpr ⟨by rw [h80]; norm_num, by rw [h80]⟩

/-- C1 at a concrete input: a 200 response that decodes to feels-like 80. -/
theorem C1_tempDescription_thresholds_witness :
    DecodesTo (constWorld 200 (.ok "body") (.ok springfieldResponse) "") "key" "39.8" "-89.6"
        springfieldResponse ∧
    ∃ sw, (fetchCurrentWeatherForLatLon (constWorld 200 (.ok "body") (.ok springfieldResponse) "")
        "key" "39.8" "-89.6").value = some sw ∧
      (sw.TempDescription = "Cold" ↔ springfieldResponse.Main.FeelsLike < 40) ∧
      (sw.TempDescription = "Hot" ↔ springfieldResponse.Main.FeelsLike > 80) ∧
      (sw.TempDescription = "Moderate" ↔
        40 ≤ springfieldResponse.Main.FeelsLike ∧ springfieldResponse.Main.FeelsLike ≤ 80) ∧
      (springfieldResponse.Main.FeelsLike = 40 → sw.TempDescription = "Moderate") ∧
      (springfieldResponse.Main.FeelsLike = 80 → sw.TempDescription = "Moderate") :=
  ⟨⟨_, "body", rfl, rfl, rfl, rfl⟩,
   C1_tempDescription_thresholds _ "key" "39.8" "-89.6" springfieldResponse
     ⟨_, "body", rfl, rfl, rfl, rfl⟩⟩

/-- C3: for every decoded condition sequence, the `CurrentDescription` of the
result is the concatenation, in original order, of the strings
`Main ++ ": " ++ Description ++ "\n"`; for the empty sequence it is the empty
string. -/
theorem C3_currentDescription_is_concatenation (env : World) (apikey lat lon : String)
    (current : CurrentWeather) (h : DecodesTo env apikey lat lon current) :
    (∃ sw, (fetchCurrentWeatherForLatLon env apikey lat lon).value = some sw ∧
      sw.CurrentDescription = conditionSummary current.Weather) ∧
    conditionSummary [] = "" := by
  rw [fetch_of_decodes h]
  exact ⟨⟨_, rfl, currentdescription_eq _⟩, rfl⟩

/-- C3 at a concrete input: a 200 response with two conditions. -/
theorem C3_currentDescription_is_concatenation_witness :
    DecodesTo (constWorld 200 (.ok "two") (.ok springfieldResponse) "") "key" "1" "2"
        springfieldResponse ∧
    ((∃ sw, (fetchCurrentWeatherForLatLon (constWorld 200 (.ok "two") (.ok springfieldResponse) "")
        "key" "1" "2").value = some sw ∧
      sw.CurrentDescription = conditionSummary springfieldResponse.Weather) ∧
    conditionSummary [] = "") :=
  ⟨⟨_, "two", rfl, rfl, rfl, rfl⟩,
   C3_currentDescription_is_concatenation _ "key" "1" "2" springfieldResponse
     ⟨_, "two", rfl, rfl, rfl, rfl⟩⟩

/-- C5: for every upstream name `n` of a decoded response, the `Name` of the
result is `n` itself when `n` is non-empty and the literal
"an unknown location" when `n` is empty. -/
theorem C5_name_fallback (env : World) (apikey lat lon : String)
    (current : CurrentWeather) (h : DecodesTo env apikey lat lon current) :
    ∃ sw, (fetchCurrentWeatherForLatLon env apikey lat lon).value = some sw ∧
      (current.Name ≠ "" → sw.Name = current.Name) ∧
      (current.Name = "" → sw.Name = "an unknown location") := by
  rw [fetch_of_decodes h]
  refine ⟨_, rfl, ?_, ?_⟩
  · intro hne
    simp [name, hne]
  · intro he
    simp [name, he]

/-- C5 at a concrete input: a 200 response without a name. -/
theorem C5_name_fallback_witness :
    DecodesTo (constWorld 200 (.ok "anon") (.ok rainyResponse) "") "key" "0" "0" rainyResponse ∧
    ∃ sw, (fetchCurrentWeatherForLatLon (constWorld 200 (.ok "anon") (.ok rainyResponse) "")
        "key" "0" "0").value = some sw ∧
      (rainyResponse.Name ≠ "" → sw.Name = rainyResponse.Name) ∧
      (rainyResponse.Name = "" → sw.Name = "an unknown location") :=
  ⟨⟨_, "anon", rfl, rfl, rfl, rfl⟩,
   C5_name_fallback _ "key" "0" "0" rainyResponse ⟨_, "anon", rfl, rfl, rfl, rfl⟩⟩

/-- C10: the summary built by the loop distributes over concatenation of
condition sequences: `summary (xs ++ ys) = summary xs ++ summary ys`. -/
theorem C10_currentdescription_append (xs ys : List WeatherEntry) :
    currentdescription (xs ++ ys) = currentdescription xs ++ currentdescription ys := by
  rw [currentdescription_eq, currentdescription_eq, currentdescription_eq,
    conditionSummary_append]

/-- C9: for every credential and every pair of input strings, the one URL
passed to `http.Get` is the base URL followed by the credential, `&lat=`, the
latitude text, `&lon=` and the longitude text, all verbatim; it contains
`units=imperial`. -/
theorem C9_request_url (env : World) (apikey lat lon : String) :
    (fetchCurrentWeatherForLatLon env apikey lat lon).requests =
      ["https://api.openweathermap.org/data/2.5/weather?units=imperial&appid="
        ++ apikey ++ "&lat=" ++ lat ++ "&lon=" ++ lon] ∧
    requestURL apikey lat lon =
      "https://api.openweathermap.org/data/2.5/weather?" ++
        ("units=imperial" ++ ("&appid=" ++ apikey ++ "&lat=" ++ lat ++ "&lon=" ++ lon)) := by
  constructor
  · unfold fetchCurrentWeatherForLatLon
    simp only [requestURL, baseurl]
    split
    · rfl
    · split
      · rfl
      · split
        · rfl
        · split <;> rfl
  · simp only [requestURL, baseurl, ← String.append_assoc]
    rfl

/-! ## Claims about success and failure of the client -/

/-- C6: the client never returns a partially populated result. Either it
returns no `SimpleWeather` together with a non-nil error, or the upstream
answered 200 with a body that decodes, the error is nil and all four fields
come from that one decoded response. For feels-like 35, an empty name and the
single condition "Rain"/"light rain" the result is
`{"an unknown location", "Cold", 35, "Rain: light rain\n"}`. -/
theorem C6_all_or_nothing (env : World) (apikey lat lon : String) :
    (((fetchCurrentWeatherForLatLon env apikey lat lon).value = none ∧
        ∃ e, (fetchCurrentWeatherForLatLon env apikey lat lon).err = some e) ∨
      (∃ current, DecodesTo env apikey lat lon current ∧
        (fetchCurrentWeatherForLatLon env apikey lat lon).err = none ∧
        (fetchCurrentWeatherForLatLon env apikey lat lon).value = some
          { Name := name current.Name,
            TempDescription := description current.Main.FeelsLike,
            Temp := current.Main.FeelsLike,
            CurrentDescription := currentdescription current.Weather })) ∧
    (∀ (current : CurrentWeather) (id : Int) (icon : String),
      DecodesTo env apikey lat lon current →
      current.Main.FeelsLike = 35 → current.Name = "" →
      current.Weather = [{ ID := id, Main := "Rain", Description := "light rain", Icon := icon }] →
      (fetchCurrentWeatherForLatLon env apikey lat lon).err = none ∧
      (fetchCurrentWeatherForLatLon env apikey lat lon).value = some
        { Name := "an unknown location", TempDescription := "Cold", Temp := 35,
          CurrentDescription := "Rain: light rain\n" }) := by
  constructor
  · cases hget : env.Get (requestURL apikey lat lon) with
    | error e =>
      left
      simp [fetchCurrentWeatherForLatLon, hget]
    | ok resp =>
      cases hbody : resp.Body with
      | error e =>
        left
        simp [fetchCurrentWeatherForLatLon, hget, hbody]
      | ok body =>
        by_cases hstatus : resp.StatusCode = 200
        · cases hdec : env.Unmarshal body with
          | error e =>
            left
            simp [fetchCurrentWeatherForLatLon, hget, hbody, hstatus, hdec]
          | ok current =>
            right
            have hd : DecodesTo env apikey lat lon current :=
              ⟨resp, body, hget, hbody, hstatus, hdec⟩
            refine ⟨current, hd, ?_, ?_⟩
            · rw [fetch_of_decodes hd]
            · rw [fetch_of_decodes hd]
        · left
          simp [fetchCurrentWeatherForLatLon, hget, hbody, hstatus]
  · intro current id icon hd ht hn hw
    rw [fetch_of_decodes hd, ht, hn, hw]
    refine ⟨rfl, ?_⟩
    have hdesc : description 35 = "Cold" := by
      unfold description
      norm_num
    simp only [hdesc]
    rfl

/-- C6 at a concrete input: the rainy scenario served by a constant upstream. -/
theorem C6_all_or_nothing_witness :
    (fetchCurrentWeatherForLatLon (constWorld 200 (.ok "rain") (.ok rainyResponse) "")
        "key" "47.6" "-122.3").err = none ∧
    (fetchCurrentWeatherForLatLon (constWorld 200 (.ok "rain") (.ok rainyResponse) "")
        "key" "47.6" "-122.3").value = some
      { Name := "an unknown location", TempDescription := "Cold", Temp := 35,
        CurrentDescription := "Rain: light rain\n" } :=
  (C6_all_or_nothing (constWorld 200 (.ok "rain") (.ok rainyResponse) "")
      "key" "47.6" "-122.3").2 rainyResponse 500 "10d"
    ⟨_, "rain", rfl, rfl, rfl, rfl⟩ rfl rfl rfl

/-- C8: given that the outbound GET and the body read succeed, the client
succeeds if and only if the status is 200 and the body decodes. A 200 body that
fails to decode yields an error whose text is "error unmarshalling response: "
followed by the decoder's text; a 200 body that decodes yields no error; and a
non-200 response fails without its body being passed to the decoder, whatever
the decoder would have made of it. -/
theorem C8_success_iff_200_and_decodes (env : World) (apikey lat lon : String)
    (resp : Response) (body : String)
    (hget : env.Get (requestURL apikey lat lon) = .ok resp) (hbody : resp.Body = .ok body) :
    (((fetchCurrentWeatherForLatLon env apikey lat lon).err = none ∧
        (fetchCurrentWeatherForLatLon env apikey lat lon).value.isSome = true) ↔
      (resp.StatusCode = 200 ∧ ∃ current, env.Unmarshal body = .ok current)) ∧
    (∀ e, resp.StatusCode = 200 → env.Unmarshal body = .error e →
      (fetchCurrentWeatherForLatLon env apikey lat lon).value = none ∧
      ∃ x, (fetchCurrentWeatherForLatLon env apikey lat lon).err = some x ∧
        x.Error = "error unmarshalling response: " ++ e.Error) ∧
    (∀ current, resp.StatusCode = 200 → env.Unmarshal body = .ok current →
      (fetchCurrentWeatherForLatLon env apikey lat lon).err = none) ∧
    (resp.StatusCode ≠ 200 →
      (fetchCurrentWeatherForLatLon env apikey lat lon).value = none ∧
      (∃ x, (fetchCurrentWeatherForLatLon env apikey lat lon).err = some x) ∧
      (fetchCurrentWeatherForLatLon env apikey lat lon).decodes = []) := by
  refine ⟨?_, ?_, ?_, ?_⟩
  · by_cases hstatus : resp.StatusCode = 200
    · cases hdec : env.Unmarshal body with
      | error e => simp [fetchCurrentWeatherForLatLon, hget, hbody, hstatus, hdec]
      | ok current => simp [fetchCurrentWeatherForLatLon, hget, hbody, hstatus, hdec]
    · simp [fetchCurrentWeatherForLatLon, hget, hbody, hstatus]
  · intro e hstatus hdec
    simp [fetchCurrentWeatherForLatLon, hget, hbody, hstatus, hdec, ErrorfW, GoError.Error]
  · intro current hstatus hdec
    simp [fetchCurrentWeatherForLatLon, hget, hbody, hstatus, hdec]
  · intro hstatus
    simp [fetchCurrentWeatherForLatLon, hget, hbody, hstatus]

/-- C8 at a concrete input: a 200 response whose body is truncated JSON. -/
theorem C8_success_iff_200_and_decodes_witness :
    (constWorld 200 (.ok "\x7b\"coord\":") (.error (.lib "unexpected end of JSON input")) "").Get
        (requestURL "key" "1" "2") = .ok { StatusCode := 200, Body := .ok "\x7b\"coord\":" } ∧
    (fetchCurrentWeatherForLatLon
        (constWorld 200 (.ok "\x7b\"coord\":") (.error (.lib "unexpected end of JSON input")) "")
        "key" "1" "2").value = none ∧
    ∃ x, (fetchCurrentWeatherForLatLon
        (constWorld 200 (.ok "\x7b\"coord\":") (.error (.lib "unexpected end of JSON input")) "")
        "key" "1" "2").err = some x ∧
      x.Error = "error unmarshalling response: " ++ "unexpected end of JSON input" :=
  ⟨rfl,
   (C8_success_iff_200_and_decodes
      (constWorld 200 (.ok "\x7b\"coord\":") (.error (.lib "unexpected end of JSON input")) "")
      "key" "1" "2" { StatusCode := 200, Body := .ok "\x7b\"coord\":" } "\x7b\"coord\":"
      rfl rfl).2.1 (.lib "unexpected end of JSON input") rfl rfl⟩

/-! ## Formatting without operands -/

theorem span_no_percent (l : List Char) (h : '%' ∉ l) :
    l.span (fun c => c != '%') = (l, []) := by
  rw [List.span_eq_take_drop]
  have hall : ∀ x ∈ l, (fun c : Char => c != '%') x = true := by
    intro x hx
    have hne : x ≠ '%' := fun he => h (he ▸ hx)
    simpa using hne
  rw [List.takeWhile_eq_self_iff.mpr hall, List.dropWhile_eq_nil_iff.mpr hall]

/-- A format without a percent sign is copied unchanged. -/
theorem doPrintf_verbatim (format : String) (h : '%' ∉ format.data) :
    doPrintf format = format := by
  unfold doPrintf
  rw [doPrintfLoop, span_no_percent _ h]
  rfl

/-- In particular `fmt.Errorf(body)` shows `body` when `body` has no percent sign. -/
theorem Errorf_verbatim (body : String) (h : '%' ∉ body.data) :
    (Errorf body).Error = body := by
  simp [Errorf, GoError.Error, doPrintf_verbatim body h]

/-- C2 (the code departs from the claim): an upstream 429 whose body contains a
percent sign. The client fails, but the display text of its error is the body
run through the formatter, `quota 100%!u(MISSING)sed`, and not the body. -/
theorem C2_percent_body_is_reformatted :
    (fetchCurrentWeatherForLatLon (constWorld 429 (.ok quotaBody) (.ok {}) "")
        "key" "1" "2").value = none ∧
    (fetchCurrentWeatherForLatLon (constWorld 429 (.ok quotaBody) (.ok {}) "")
        "key" "1" "2").err =
      some (.errorString "\x7b\"cod\":429,\"message\":\"quota 100%!u(MISSING)sed\"\x7d") ∧
    (GoError.errorString "\x7b\"cod\":429,\"message\":\"quota 100%!u(MISSING)sed\"\x7d").Error
      ≠ quotaBody := by
  refine ⟨rfl, ?_, ?_⟩
  · decide
  · decide

/-! ## The handler -/

/-- C7: for every error `e` returned by the weather client, the handler appends
to the response exactly "unable to get weather:" followed by the display text
of `e`, so that a fresh response holds that text and nothing else, and it
leaves the status unset. For an upstream 401 with the body
`{"cod":401,"message":"Invalid API key."}` the response body is
`unable to get weather:{"cod":401,"message":"Invalid API key."}`. -/
theorem C7_handler_error_text (env : World) (apikey : String) (FormValue : String → String) :
    (∀ e, (fetchCurrentWeatherForLatLon env apikey (FormValue "lat") (FormValue "lon")).err
        = some e →
      (∀ w, currentweather env apikey FormValue w =
        { body := w.body ++ ("unable to get weather:" ++ e.Error), status := w.status }) ∧
      currentweather env apikey FormValue {} =
        { body := "unable to get weather:" ++ e.Error, status := none }) ∧
    (∀ resp, env.Get (requestURL apikey (FormValue "lat") (FormValue "lon")) = .ok resp →
      resp.StatusCode = 401 → resp.Body = .ok invalidKeyBody →
      currentweather env apikey FormValue {} =
        { body := "unable to get weather:\x7b\"cod\":401,\"message\":\"Invalid API key.\"\x7d",
          status := none }) := by
  have key : ∀ e, (fetchCurrentWeatherForLatLon env apikey (FormValue "lat")
      (FormValue "lon")).err = some e →
      ∀ w, currentweather env apikey FormValue w =
        { body := w.body ++ ("unable to get weather:" ++ e.Error), status := w.status } := by
    intro e he w
    simp only [currentweather, he, FprintfV]
  refine ⟨fun e he => ⟨key e he, ?_⟩, ?_⟩
  · rw [key e he]
    simp [String.empty_append]
  · intro resp hget hstatus hbody
    have he : (fetchCurrentWeatherForLatLon env apikey (FormValue "lat")
        (FormValue "lon")).err = some (Errorf invalidKeyBody) := by
      simp [fetchCurrentWeatherForLatLon, hget, hbody, hstatus]
    rw [key _ he]
    have htext : (Errorf invalidKeyBody).Error = invalidKeyBody :=
      Errorf_verbatim invalidKeyBody (by decide)
    rw [htext]
    decide

/-- C7 at a concrete input: the invalid-key scenario. -/
theorem C7_handler_error_text_witness :
    currentweather (constWorld 401 (.ok invalidKeyBody) (.ok {}) "<html>")
        "bad" (fun k => if k = "lat" then "51.5" else "-0.1") {} =
      { body := "unable to get weather:\x7b\"cod\":401,\"message\":\"Invalid API key.\"\x7d",
        status := none } :=
  (C7_handler_error_text (constWorld 401 (.ok invalidKeyBody) (.ok {}) "<html>")
      "bad" (fun k => if k = "lat" then "51.5" else "-0.1")).2
    { StatusCode := 401, Body := .ok invalidKeyBody } rfl rfl rfl

/-! ## Lines of the condition summary -/

theorem splitLinesAux_line (l : List Char) (h : '\n' ∉ l) (cur rest : List Char) :
    splitLinesAux cur (l ++ '\n' :: rest) =
      (String.mk (cur ++ l) :: (splitLinesAux [] rest).1, (splitLinesAux [] rest).2) := by
  induction l generalizing cur with
  | nil => simp [splitLinesAux]
  | cons c cs ih =>
    have hc : c ≠ '\n' := fun he => h (by simp [he])
    have hcs : '\n' ∉ cs := fun hm => h (List.mem_cons_of_mem _ hm)
    have hrec := ih hcs (cur ++ [c])
    simpa [splitLinesAux, hc] using hrec

theorem line_data (e : WeatherEntry) :
    (e.Main ++ ": " ++ e.Description ++ "\n").data =
      (e.Main ++ ": " ++ e.Description).data ++ ['\n'] := by
  rw [String.data_append]

theorem line_no_newline (e : WeatherEntry)
    (h : '\n' ∉ e.Main.data ∧ '\n' ∉ e.Description.data) :
    '\n' ∉ (e.Main ++ ": " ++ e.Description).data := by
  simp only [String.data_append, List.mem_append, not_or]
  exact ⟨⟨h.1, by decide⟩, h.2⟩

/-- The claim C4 as stated fails: a single entry whose description contains a
newline gives a summary with two newline characters, and splitting the summary
at newlines does not give back the entry's line. -/
theorem C4_newline_in_description_counterexample :
    stormEntries.length = 1 ∧
    (currentdescription stormEntries).data.count '\n' = 2 ∧
    (terminatedLines (currentdescription stormEntries)).1 =
      ["Thunderstorm: heavy rain", "with hail"] ∧
    (terminatedLines (currentdescription stormEntries)).1 ≠
      stormEntries.map (fun e => e.Main ++ ": " ++ e.Description) := by
  decide

/-- C4 (amended): for every condition sequence of `k` entries whose `Main` and
`Description` strings contain no newline, the summary contains exactly `k`
newline characters, and its newline-terminated lines are, in original order,
the `k` strings `"<Main>: <Description>"`, with nothing after the last
newline. -/
theorem C4_summary_lines (es : List WeatherEntry)
    (h : ∀ e ∈ es, '\n' ∉ e.Main.data ∧ '\n' ∉ e.Description.data) :
    (currentdescription es).data.count '\n' = es.length ∧
    terminatedLines (currentdescription es) =
      (es.map (fun e => e.Main ++ ": " ++ e.Description), "") := by
  rw [currentdescription_eq]
  unfold terminatedLines
  induction es with
  | nil => exact ⟨rfl, rfl⟩
  | cons e es ih =>
    have he := line_no_newline e (h e (List.mem_cons_self _ _))
    obtain ⟨ihc, ihl⟩ := ih (fun x hx => h x (List.mem_cons_of_mem _ hx))
    rw [conditionSummary, String.data_append, line_data]
    constructor
    · rw [List.count_append, List.count_append, ihc, List.count_eq_zero_of_not_mem he]
      simp
      omega
    · rw [List.append_assoc, List.singleton_append, splitLinesAux_line _ he, ihl]
      simp only [List.nil_append, List.map_cons]

/-- C4 at a concrete input: two conditions without newlines. -/
theorem C4_summary_lines_witness :
    (∀ e ∈ springfieldResponse.Weather, '\n' ∉ e.Main.data ∧ '\n' ∉ e.Description.data) ∧
    (currentdescription springfieldResponse.Weather).data.count '\n'
      = springfieldResponse.Weather.length ∧
    terminatedLines (currentdescription springfieldResponse.Weather) =
      (springfieldResponse.Weather.map (fun e => e.Main ++ ": " ++ e.Description), "") :=
  ⟨by decide, C4_summary_lines springfieldResponse.Weather (by decide)⟩

end WeatherService
